import Mathlib

/-!
Verification development for the LawyerHub reward system.

The definitions below are a shallow embedding of `src/reward-system.py`
(class `RewardSystem`) and of the duplicated scoring helpers in
`src/lawyerhub-backend.py`.  Python dictionaries of optional metrics are
modelled as a structure of `Option` fields; Python floats are modelled as
exact rationals (every float value is a rational), except inside the points
calculation where `math.log10` forces the computation into `ℝ`.
-/

/-- A lawyer metrics snapshot: the `lawyer_data` dictionary.  A `none` field
models a key that is absent from the dictionary. -/
structure MetricsSnapshot where
  rating : Option ℚ := none
  review_count : Option ℕ := none
  consultations_completed : Option ℕ := none
  avg_response_time_minutes : Option ℚ := none
  success_rate : Option ℚ := none
  profile_completion : Option ℚ := none
  days_active : Option ℕ := none
  response_rate : Option ℚ := none
  total_inquiries : Option ℕ := none
  cases_completed : Option ℕ := none
  recency_factor : Option ℚ := none

/-- `RewardSystem.WEIGHTS`: points calculation weights. -/
def WEIGHTS : String → ℚ
  | "rating" => 100
  | "review" => 10
  | "consultation" => 5
  | "response_time" => 50
  | "success_rate" => 100
  | "profile_quality" => 50
  | _ => 0

/-- Python `int(x)`: truncation toward zero. -/
noncomputable def pyInt (x : ℝ) : ℤ := if 0 ≤ x then ⌊x⌋ else ⌈x⌉

/-- First block of `calculate_reward_points`: points from rating, guarded by
Python truthiness of `rating` and `review_count` (`dict.get` returns a falsy
value when the key is absent or the value is zero). -/
noncomputable def ratingStep (d : MetricsSnapshot) (points : ℝ) : ℝ :=
  if d.rating.getD 0 ≠ 0 ∧ d.review_count.getD 0 ≠ 0 then
    points + (WEIGHTS "rating" : ℝ) * ((d.rating.getD 0 : ℝ) / 5) *
      min 1 (Real.logb 10 ((d.review_count.getD 0 : ℝ) + 1) / 2)
  else points

/-- Points from reviews (guarded by truthiness of `review_count`). -/
noncomputable def reviewStep (d : MetricsSnapshot) (points : ℝ) : ℝ :=
  if d.review_count.getD 0 ≠ 0 then
    points + (d.review_count.getD 0 : ℝ) * (WEIGHTS "review" : ℝ)
  else points

/-- Points from consultations (guarded by truthiness). -/
noncomputable def consultationStep (d : MetricsSnapshot) (points : ℝ) : ℝ :=
  if d.consultations_completed.getD 0 ≠ 0 then
    points + (d.consultations_completed.getD 0 : ℝ) * (WEIGHTS "consultation" : ℝ)
  else points

/-- Points from response time: guarded by `is not None`; the minutes value is
converted to hours and only contributes when at most 24 hours. -/
noncomputable def responseStep (d : MetricsSnapshot) (points : ℝ) : ℝ :=
  match d.avg_response_time_minutes with
  | none => points
  | some m =>
    if m / 60 ≤ 24 then
      points + (WEIGHTS "response_time" : ℝ) * max 0 (1 - ((m : ℝ) / 60) / 24)
    else points

/-- Points from success rate (guarded by `is not None`). -/
noncomputable def successStep (d : MetricsSnapshot) (points : ℝ) : ℝ :=
  match d.success_rate with
  | none => points
  | some s => points + (WEIGHTS "success_rate" : ℝ) * (s : ℝ)

/-- Points from profile completion (guarded by `is not None`). -/
noncomputable def profileStep (d : MetricsSnapshot) (points : ℝ) : ℝ :=
  match d.profile_completion with
  | none => points
  | some q => points + (WEIGHTS "profile_quality" : ℝ) * (q : ℝ)

/-- Activity bonus: the running sum is scaled by up to 20 percent, guarded by
truthiness of `days_active`. -/
noncomputable def activityStep (d : MetricsSnapshot) (points : ℝ) : ℝ :=
  if d.days_active.getD 0 ≠ 0 then
    points * (1 + min 1 ((d.days_active.getD 0 : ℝ) / 730) * 0.2)
  else points

/-- `RewardSystem.calculate_reward_points`: the sequential accumulation of the
six contribution blocks followed by the activity multiplier and `int(...)`. -/
noncomputable def calculate_reward_points (d : MetricsSnapshot) : ℤ :=
  pyInt (activityStep d (profileStep d (successStep d (responseStep d
    (consultationStep d (reviewStep d (ratingStep d 0)))))))

/-- `RewardSystem.TIER_THRESHOLDS`. -/
def TIER_THRESHOLDS : String → ℤ
  | "standard" => 0
  | "silver" => 150
  | "gold" => 300
  | "platinum" => 500
  | _ => 0

/-- `RewardSystem.TIER_RATING_REQUIREMENTS`. -/
def TIER_RATING_REQUIREMENTS : String → ℚ
  | "standard" => 0
  | "silver" => 3.5
  | "gold" => 4.0
  | "platinum" => 4.5
  | _ => 0

/-- `RewardSystem.TIER_REVIEW_REQUIREMENTS`. -/
def TIER_REVIEW_REQUIREMENTS : String → ℕ
  | "standard" => 0
  | "silver" => 10
  | "gold" => 20
  | "platinum" => 30
  | _ => 0

/-- The `for tier in [...]` loop of `determine_reward_tier`: return the first
tier whose three requirements are met. -/
def tierLoop (points : ℤ) (rating : ℚ) (review_count : ℕ) : List String → String
  | [] => "standard"
  | tier :: rest =>
    if TIER_THRESHOLDS tier ≤ points ∧ TIER_RATING_REQUIREMENTS tier ≤ rating ∧
        TIER_REVIEW_REQUIREMENTS tier ≤ review_count then
      tier
    else tierLoop points rating review_count rest

/-- `RewardSystem.determine_reward_tier`: highest-first scan with `standard`
as the fallback after the loop. -/
def determine_reward_tier (points : ℤ) (rating : ℚ) (review_count : ℕ) : String :=
  tierLoop points rating review_count ["platinum", "gold", "silver", "standard"]

/-- `determine_reward_tier` from `src/lawyerhub-backend.py`: the duplicated
if-chain implementation. -/
def backendDetermineRewardTier (points : ℤ) (rating : ℚ) (review_count : ℕ) : String :=
  if 500 ≤ points ∧ 4.5 ≤ rating ∧ 30 ≤ review_count then "platinum"
  else if 300 ≤ points ∧ 4.0 ≤ rating ∧ 20 ≤ review_count then "gold"
  else if 150 ≤ points ∧ 3.5 ≤ rating ∧ 10 ≤ review_count then "silver"
  else "standard"

/-- One badge's criteria dictionary: a `none` field models a key that the
badge's entry in `BADGE_CRITERIA` does not contain. -/
structure Criteria where
  min_rating : Option ℚ := none
  exact_rating : Option ℚ := none
  min_reviews : Option ℕ := none
  max_reviews : Option ℕ := none
  max_days_registered : Option ℕ := none
  response_rate : Option ℚ := none
  avg_response_time_hours : Option ℚ := none
  min_inquiries : Option ℕ := none
  success_rate : Option ℚ := none
  min_cases : Option ℕ := none
  percentile : Option ℕ := none

/-- Criteria of the `Top Rated` badge. -/
def topRatedCriteria : Criteria :=
  { min_rating := some 4.8, min_reviews := some 10 }

/-- Criteria of the `Client Favorite` badge. -/
def clientFavoriteCriteria : Criteria :=
  { min_rating := some 4.5, min_reviews := some 20 }

/-- Criteria of the `Rising Star` badge. -/
def risingStarCriteria : Criteria :=
  { min_rating := some 4.0, min_reviews := some 5,
    max_reviews := some 15, max_days_registered := some 180 }

/-- Criteria of the `Experienced Pro` badge. -/
def experiencedProCriteria : Criteria :=
  { min_reviews := some 30 }

/-- Criteria of the `Perfect Score` badge. -/
def perfectScoreCriteria : Criteria :=
  { exact_rating := some 5.0, min_reviews := some 3 }

/-- Criteria of the `Quick Responder` badge. -/
def quickResponderCriteria : Criteria :=
  { response_rate := some 0.9, avg_response_time_hours := some 4,
    min_inquiries := some 15 }

/-- Criteria of the `Case Winner` badge. -/
def caseWinnerCriteria : Criteria :=
  { success_rate := some 0.75, min_cases := some 10 }

/-- Criteria of the `Top 10%` badge (the `'metric': 'rating'` entry of the
source dictionary is configuration for the unimplemented percentile query and
is never read by `check_badge_eligibility`). -/
def topTenCriteria : Criteria :=
  { percentile := some 10, min_reviews := some 15 }

/-- `RewardSystem.BADGE_CRITERIA`, in dictionary insertion order. -/
def BADGE_CRITERIA : List (String × Criteria) :=
  [("Top Rated", topRatedCriteria),
   ("Client Favorite", clientFavoriteCriteria),
   ("Rising Star", risingStarCriteria),
   ("Experienced Pro", experiencedProCriteria),
   ("Perfect Score", perfectScoreCriteria),
   ("Quick Responder", quickResponderCriteria),
   ("Case Winner", caseWinnerCriteria),
   ("Top 10%", topTenCriteria)]

/-- The `min_rating` check fires: `lawyer_data.get('rating', 0) < threshold`. -/
def minRatingViolated (th : ℚ) (d : MetricsSnapshot) : Bool :=
  decide (d.rating.getD 0 < th)

/-- The `exact_rating` check fires: `lawyer_data.get('rating', 0) != threshold`. -/
def exactRatingViolated (th : ℚ) (d : MetricsSnapshot) : Bool :=
  decide (d.rating.getD 0 ≠ th)

/-- The `min_reviews` check fires: `lawyer_data.get('review_count', 0) < threshold`. -/
def minReviewsViolated (th : ℕ) (d : MetricsSnapshot) : Bool :=
  decide (d.review_count.getD 0 < th)

/-- The `max_reviews` check fires: `lawyer_data.get('review_count', 0) > threshold`. -/
def maxReviewsViolated (th : ℕ) (d : MetricsSnapshot) : Bool :=
  decide (d.review_count.getD 0 > th)

/-- The `max_days_registered` check fires:
`lawyer_data.get('days_active', float('inf')) > threshold`, so an absent
`days_active` always fires. -/
def maxDaysRegisteredViolated (th : ℕ) (d : MetricsSnapshot) : Bool :=
  match d.days_active with
  | none => true
  | some x => decide (x > th)

/-- The `response_rate` check fires: `lawyer_data.get('response_rate', 0) < threshold`. -/
def responseRateViolated (th : ℚ) (d : MetricsSnapshot) : Bool :=
  decide (d.response_rate.getD 0 < th)

/-- The `avg_response_time_hours` check fires:
`lawyer_data.get('avg_response_time_minutes', float('inf')) / 60 > threshold`,
so an absent response time always fires. -/
def avgResponseTimeViolated (th : ℚ) (d : MetricsSnapshot) : Bool :=
  match d.avg_response_time_minutes with
  | none => true
  | some m => decide (m / 60 > th)

/-- The `min_inquiries` check fires: `lawyer_data.get('total_inquiries', 0) < threshold`. -/
def minInquiriesViolated (th : ℕ) (d : MetricsSnapshot) : Bool :=
  decide (d.total_inquiries.getD 0 < th)

/-- The `success_rate` check fires: `lawyer_data.get('success_rate', 0) < threshold`. -/
def successRateViolated (th : ℚ) (d : MetricsSnapshot) : Bool :=
  decide (d.success_rate.getD 0 < th)

/-- The `min_cases` check fires: `lawyer_data.get('cases_completed', 0) < threshold`. -/
def minCasesViolated (th : ℕ) (d : MetricsSnapshot) : Bool :=
  decide (d.cases_completed.getD 0 < th)

/-- One source block `if kind in criteria: if <test>: criteria_met = False`,
as its effect on the flag: the flag survives the block when the criterion key
is absent or its test does not fire. -/
def criterionOk {α : Type} (crit : Option α) (violated : α → Bool) : Bool :=
  match crit with
  | none => true
  | some th => !(violated th)

/-- The body of the `for badge_name, criteria ...` loop: the `criteria_met`
flag starts at `true` and each check block clears it when its criterion is
present in the criteria dictionary and its test fires (no block ever raises
the flag, so the final flag is the conjunction of the blocks).  The
`percentile` block of the source is a `pass` guarded by `self.db is not
None`: it never touches the flag, so it is a no-op for any `hasDb`. -/
def criteriaMet (c : Criteria) (hasDb : Bool) (d : MetricsSnapshot) : Bool :=
  criterionOk c.min_rating (fun th => minRatingViolated th d) &&
  criterionOk c.exact_rating (fun th => exactRatingViolated th d) &&
  criterionOk c.min_reviews (fun th => minReviewsViolated th d) &&
  criterionOk c.max_reviews (fun th => maxReviewsViolated th d) &&
  criterionOk c.max_days_registered (fun th => maxDaysRegisteredViolated th d) &&
  criterionOk c.response_rate (fun th => responseRateViolated th d) &&
  criterionOk c.avg_response_time_hours (fun th => avgResponseTimeViolated th d) &&
  criterionOk c.min_inquiries (fun th => minInquiriesViolated th d) &&
  criterionOk c.success_rate (fun th => successRateViolated th d) &&
  criterionOk c.min_cases (fun th => minCasesViolated th d) &&
  (match c.percentile, hasDb with
   | some _, true => true
   | _, _ => true)

/-- The accumulation loop of `check_badge_eligibility` over a criteria table. -/
def badgeLoop (hasDb : Bool) (d : MetricsSnapshot) : List (String × Criteria) → List String
  | [] => []
  | (badge_name, criteria) :: rest =>
    if criteriaMet criteria hasDb d then badge_name :: badgeLoop hasDb d rest
    else badgeLoop hasDb d rest

/-- `RewardSystem.check_badge_eligibility`.  `hasDb` models whether the
engine was constructed with a database connection (`self.db is not None`). -/
def check_badge_eligibility (hasDb : Bool) (d : MetricsSnapshot) : List String :=
  badgeLoop hasDb d BADGE_CRITERIA

/-- The `tier_boosts` dictionary of `calculate_search_boost`, read with
`dict.get(lawyer_tier, 1.0)`. -/
def tier_boosts (t : String) : ℚ :=
  if t = "standard" then 1.0
  else if t = "silver" then 1.2
  else if t = "gold" then 1.5
  else if t = "platinum" then 2.0
  else 1.0

/-- `premium_badges` from `calculate_search_boost`. -/
def premium_badges : List String := ["Top Rated", "Client Favorite", "Perfect Score"]

/-- Python `round(x)` on a rational: round half to even (banker's rounding). -/
def roundHalfEven (x : ℚ) : ℤ :=
  if x - ⌊x⌋ < 1/2 then ⌊x⌋
  else if 1/2 < x - ⌊x⌋ then ⌊x⌋ + 1
  else if ⌊x⌋ % 2 = 0 then ⌊x⌋ else ⌊x⌋ + 1

/-- Python `round(x, 2)`: round half to even at two decimal places. -/
def round2 (x : ℚ) : ℚ := (roundHalfEven (100 * x) : ℚ) / 100

/-- `RewardSystem.calculate_search_boost`. -/
def calculate_search_boost (lawyer_tier : String) (badges : List String)
    (recency_factor : ℚ) : ℚ :=
  let base_boost := tier_boosts lawyer_tier
  let badge_boost := min 0.5 ((badges.length : ℚ) * 0.1)
  let premium_count := (badges.filter (fun badge => premium_badges.contains badge)).length
  let premium_boost := (premium_count : ℚ) * 0.1
  let total_boost := (base_boost + badge_boost + premium_boost) * recency_factor
  round2 total_boost

/-- The reward record assembled by `process_lawyer_rewards`.  `last_updated`
holds the value of `datetime.utcnow()` at the time of the call, modelled as an
abstract timestamp passed in by the environment. -/
structure RewardData where
  reward_points : ℤ
  reward_tier : String
  badges : List String
  search_boost : ℚ
  last_updated : ℕ

/-- `RewardSystem.process_lawyer_rewards` for an engine constructed without a
database connection (`self.db is None`): the database branch is skipped and
the assembled record is returned.  `now` is the clock value read by
`datetime.utcnow()`. -/
noncomputable def process_lawyer_rewards (lawyer_id : String) (d : MetricsSnapshot)
    (now : ℕ) : RewardData :=
  let points := calculate_reward_points d
  let tier := determine_reward_tier points (d.rating.getD 0) (d.review_count.getD 0)
  let eligible_badges := check_badge_eligibility false d
  let search_boost := calculate_search_boost tier eligible_badges (d.recency_factor.getD 1.0)
  { reward_points := points
    reward_tier := tier
    badges := eligible_badges
    search_boost := search_boost
    last_updated := now }

/-- Modelled from the spec, section 4.2: the tier threshold table
`standard(0,0,0), silver(150, 3.5, 10), gold(300, 4.0, 20),
platinum(500, 4.5, 30)`. -/
def specTierTable : String → ℤ × ℚ × ℕ
  | "silver" => (150, 3.5, 10)
  | "gold" => (300, 4.0, 20)
  | "platinum" => (500, 4.5, 30)
  | _ => (0, 0, 0)

/-- Modelled from the spec, section 4.2: a tier qualifies when points, rating
and review count all reach the tier's thresholds. -/
def specTierQualifies (tier : String) (p : ℤ) (r : ℚ) (c : ℕ) : Prop :=
  (specTierTable tier).1 ≤ p ∧ (specTierTable tier).2.1 ≤ r ∧ (specTierTable tier).2.2 ≤ c

instance (tier : String) (p : ℤ) (r : ℚ) (c : ℕ) :
    Decidable (specTierQualifies tier p r c) := by
  unfold specTierQualifies
  infer_instance

/-- Modelled from the spec, section 4.4: the tier base table
`standard=1.0, silver=1.2, gold=1.5, platinum=2.0`. -/
def spec_tier_base (t : String) : ℚ :=
  if t = "standard" then 1.0
  else if t = "silver" then 1.2
  else if t = "gold" then 1.5
  else 2.0

/-- Modelled from the spec, section 4.4: the search boost formula
`round((tier_base + min(0.5, |badges| * 0.1) + 0.1 * premium count) * recency, 2)`. -/
def spec_search_boost (tier : String) (badges : List String) (recency_factor : ℚ) : ℚ :=
  round2 ((spec_tier_base tier + min 0.5 ((badges.length : ℚ) * 0.1) +
    0.1 * ((badges.filter (fun b => premium_badges.contains b)).length : ℚ)) * recency_factor)

/-- Modelled from the spec, section 4.1 item 1: the rating contribution,
present only when both `rating` and `review_count` are present. -/
noncomputable def spec_rating_contribution (d : MetricsSnapshot) : ℝ :=
  match d.rating, d.review_count with
  | some r, some c => 100 * ((r : ℝ) / 5) * min 1 (Real.logb 10 ((c : ℝ) + 1) / 2)
  | _, _ => 0

/-- Modelled from the spec, section 4.1 item 2: the review-volume contribution. -/
noncomputable def spec_review_contribution (d : MetricsSnapshot) : ℝ :=
  match d.review_count with
  | some c => (c : ℝ) * 10
  | none => 0

/-- Modelled from the spec, section 4.1 item 3: the consultation contribution. -/
noncomputable def spec_consultation_contribution (d : MetricsSnapshot) : ℝ :=
  match d.consultations_completed with
  | some c => (c : ℝ) * 5
  | none => 0

/-- Modelled from the spec, section 4.1 item 4: the responsiveness
contribution, zero (never negative) above 24 hours. -/
noncomputable def spec_response_contribution (d : MetricsSnapshot) : ℝ :=
  match d.avg_response_time_minutes with
  | some m => if m / 60 ≤ 24 then 50 * max 0 (1 - ((m : ℝ) / 60) / 24) else 0
  | none => 0

/-- Modelled from the spec, section 4.1 item 5: the success-rate contribution. -/
noncomputable def spec_success_contribution (d : MetricsSnapshot) : ℝ :=
  match d.success_rate with
  | some s => 100 * (s : ℝ)
  | none => 0

/-- Modelled from the spec, section 4.1 item 6: the profile-quality contribution. -/
noncomputable def spec_profile_contribution (d : MetricsSnapshot) : ℝ :=
  match d.profile_completion with
  | some q => 50 * (q : ℝ)
  | none => 0

/-- Modelled from the spec, section 4.1 item 7: the activity multiplier,
applied when `days_active` is present. -/
noncomputable def spec_activity_multiplier (d : MetricsSnapshot) : ℝ :=
  match d.days_active with
  | some a => 1 + 0.2 * min 1 ((a : ℝ) / 730)
  | none => 1

/-- Modelled from the spec, section 4.1: the sum of the weighted
contributions scaled by the activity multiplier, before truncation. -/
noncomputable def spec_points_total (d : MetricsSnapshot) : ℝ :=
  (spec_rating_contribution d + spec_review_contribution d +
   spec_consultation_contribution d + spec_response_contribution d +
   spec_success_contribution d + spec_profile_contribution d) *
  spec_activity_multiplier d

/-- A snapshot that passed the caller-side validation of the spec, section 7:
rating in `[0,5]`, rates in `[0,1]`, response time non-negative (counts are
non-negative by type).  Absent fields are unconstrained (`getD 0` is the
field's value when present and `0` otherwise). -/
def ValidSnapshot (d : MetricsSnapshot) : Prop :=
  0 ≤ d.rating.getD 0 ∧ d.rating.getD 0 ≤ 5 ∧
  0 ≤ d.success_rate.getD 0 ∧ d.success_rate.getD 0 ≤ 1 ∧
  0 ≤ d.profile_completion.getD 0 ∧ d.profile_completion.getD 0 ≤ 1 ∧
  0 ≤ d.response_rate.getD 0 ∧ d.response_rate.getD 0 ≤ 1 ∧
  0 ≤ d.avg_response_time_minutes.getD 0

/-- The all-absent snapshot: an empty metrics dictionary. -/
def emptySnapshot : MetricsSnapshot := {}

/-- A snapshot with fifteen reviews and nothing else. -/
def snapTopTen : MetricsSnapshot := { review_count := some 15 }

/-- A snapshot sitting exactly on the `max_reviews` bound of `Rising Star`. -/
def snapRisingStar15 : MetricsSnapshot :=
  { rating := some 4.1, review_count := some 15, days_active := some 100 }

/-- The snapshot of the spec's Example 3: `review_count=12, rating=4.1,
days_active=100`. -/
def exampleSnap3 : MetricsSnapshot :=
  { rating := some 4.1, review_count := some 12, days_active := some 100 }

/-- The snapshot of the spec's Example 1. -/
def exampleSnap1 : MetricsSnapshot :=
  { rating := some 4.8, review_count := some 42, consultations_completed := some 38,
    avg_response_time_minutes := some 45, success_rate := some 0.87,
    profile_completion := some 0.95, days_active := some 365 }

theorem tier_ifchain (p : ℤ) (r : ℚ) (c : ℕ) :
    determine_reward_tier p r c =
      (if 500 ≤ p ∧ 4.5 ≤ r ∧ 30 ≤ c then "platinum"
       else if 300 ≤ p ∧ 4.0 ≤ r ∧ 20 ≤ c then "gold"
       else if 150 ≤ p ∧ 3.5 ≤ r ∧ 10 ≤ c then "silver"
       else "standard") := by
  show tierLoop p r c ["platinum", "gold", "silver", "standard"] = _
  simp only [tierLoop, TIER_THRESHOLDS, TIER_RATING_REQUIREMENTS, TIER_REVIEW_REQUIREMENTS]
  split_ifs <;> simp_all

theorem mem_badgeLoop (b : String) (hasDb : Bool) (d : MetricsSnapshot)
    (l : List (String × Criteria)) :
    b ∈ badgeLoop hasDb d l ↔ ∃ pr ∈ l, pr.1 = b ∧ criteriaMet pr.2 hasDb d := by
  induction l with
  | nil => simp [badgeLoop]
  | cons hd tl ih =>
    obtain ⟨n, c⟩ := hd
    by_cases h : criteriaMet c hasDb d
    · simp [badgeLoop, h, ih]
      constructor
      · rintro (rfl | hb)
        · exact Or.inl rfl
        · exact Or.inr hb
      · rintro (rfl | hb)
        · exact Or.inl rfl
        · exact Or.inr hb
    · simp [badgeLoop, h, ih]

theorem risingStar_met (db : Bool) (d : MetricsSnapshot) :
    (criteriaMet risingStarCriteria db d = true) ↔
      (4.0 ≤ d.rating.getD 0 ∧ 5 ≤ d.review_count.getD 0 ∧
       d.review_count.getD 0 ≤ 15 ∧ ∃ a, d.days_active = some a ∧ a ≤ 180) := by
  cases hda : d.days_active with
  | none =>
    simp [criteriaMet, risingStarCriteria, criterionOk, minRatingViolated,
      minReviewsViolated, maxReviewsViolated, maxDaysRegisteredViolated, hda]
  | some a =>
    simp [criteriaMet, risingStarCriteria, criterionOk, minRatingViolated,
      minReviewsViolated, maxReviewsViolated, maxDaysRegisteredViolated, hda]
    tauto

theorem topTen_met (db : Bool) (d : MetricsSnapshot) :
    (criteriaMet topTenCriteria db d = true) ↔ 15 ≤ d.review_count.getD 0 := by
  cases db <;>
    simp [criteriaMet, topTenCriteria, criterionOk, minReviewsViolated]

theorem topTen_iff (d : MetricsSnapshot) :
    "Top 10%" ∈ check_badge_eligibility false d ↔ 15 ≤ d.review_count.getD 0 := by
  rw [check_badge_eligibility, mem_badgeLoop]
  simp [BADGE_CRITERIA]
  exact topTen_met false d

theorem risingStar_iff (db : Bool) (d : MetricsSnapshot) :
    "Rising Star" ∈ check_badge_eligibility db d ↔
      (4.0 ≤ d.rating.getD 0 ∧ 5 ≤ d.review_count.getD 0 ∧
       d.review_count.getD 0 ≤ 15 ∧ ∃ a, d.days_active = some a ∧ a ≤ 180) := by
  rw [check_badge_eligibility, mem_badgeLoop, ← risingStar_met db d]
  simp [BADGE_CRITERIA]

theorem tier_boosts_ge_one (t : String) : 1 ≤ tier_boosts t := by
  unfold tier_boosts
  split_ifs <;> norm_num

theorem floor_le_roundHalfEven (x : ℚ) : ⌊x⌋ ≤ roundHalfEven x := by
  unfold roundHalfEven
  split_ifs <;> omega

theorem round2_ge_one (x : ℚ) (h : 1 ≤ x) : 1 ≤ round2 x := by
  unfold round2
  have h100 : (100 : ℤ) ≤ ⌊100 * x⌋ := by
    rw [Int.le_floor]
    push_cast
    linarith
  have h2 : (100 : ℤ) ≤ roundHalfEven (100 * x) := le_trans h100 (floor_le_roundHalfEven _)
  rw [le_div_iff₀ (by norm_num : (0:ℚ) < 100)]
  calc (1:ℚ) * 100 = ((100 : ℤ) : ℚ) := by norm_num
    _ ≤ _ := by exact_mod_cast h2

theorem boost_half : calculate_search_boost "standard" [] 0.5 = 0.5 := by
  norm_num [calculate_search_boost, tier_boosts, premium_badges, round2, roundHalfEven,
    List.filter]

theorem boost_formula (t : String) (b : List String) (r : ℚ)
    (ht : t ∈ ["standard", "silver", "gold", "platinum"]) :
    calculate_search_boost t b r = spec_search_boost t b r := by
  have hb : tier_boosts t = spec_tier_base t := by
    fin_cases ht <;> rfl
  unfold calculate_search_boost spec_search_boost
  rw [hb]
  exact congrArg round2 (by ring)

theorem boost_example :
    calculate_search_boost "platinum" ["Top Rated", "Client Favorite", "Perfect Score"] 1 = 2.6 := by
  have h1 : tier_boosts "platinum" = 2.0 := rfl
  have h2 : (["Top Rated", "Client Favorite", "Perfect Score"].filter
      (fun badge => premium_badges.contains badge)).length = 3 := rfl
  have h3 : (["Top Rated", "Client Favorite", "Perfect Score"] : List String).length = 3 := rfl
  unfold calculate_search_boost
  rw [h1, h2, h3]
  norm_num [round2, roundHalfEven, min_def]

theorem ratingStep_eq (d : MetricsSnapshot) (x : ℝ) :
    ratingStep d x = x + spec_rating_contribution d := by
  unfold ratingStep spec_rating_contribution
  cases hr : d.rating with
  | none => simp [hr]
  | some r =>
    cases hc : d.review_count with
    | none => simp [hr, hc]
    | some c =>
      simp only [hr, hc, Option.getD_some]
      by_cases hr0 : r = 0
      · subst hr0
        simp
      · by_cases hc0 : c = 0
        · subst hc0
          simp [Real.logb_one]
        · rw [if_pos ⟨hr0, hc0⟩]
          norm_num [WEIGHTS]

theorem reviewStep_eq (d : MetricsSnapshot) (x : ℝ) :
    reviewStep d x = x + spec_review_contribution d := by
  unfold reviewStep spec_review_contribution
  cases hc : d.review_count with
  | none => simp [hc]
  | some c =>
    simp only [hc, Option.getD_some]
    by_cases hc0 : c = 0
    · subst hc0
      simp
    · rw [if_pos (by exact_mod_cast hc0)]
      norm_num [WEIGHTS]

theorem consultationStep_eq (d : MetricsSnapshot) (x : ℝ) :
    consultationStep d x = x + spec_consultation_contribution d := by
  unfold consultationStep spec_consultation_contribution
  cases hc : d.consultations_completed with
  | none => simp [hc]
  | some c =>
    simp only [hc, Option.getD_some]
    by_cases hc0 : c = 0
    · subst hc0
      simp
    · rw [if_pos (by exact_mod_cast hc0)]
      norm_num [WEIGHTS]

theorem responseStep_eq (d : MetricsSnapshot) (x : ℝ) :
    responseStep d x = x + spec_response_contribution d := by
  unfold responseStep spec_response_contribution
  cases hm : d.avg_response_time_minutes with
  | none => simp
  | some m =>
    by_cases h24 : m / 60 ≤ 24
    · norm_num [h24, WEIGHTS]
    · norm_num [h24, WEIGHTS]

theorem successStep_eq (d : MetricsSnapshot) (x : ℝ) :
    successStep d x = x + spec_success_contribution d := by
  unfold successStep spec_success_contribution
  cases hs : d.success_rate with
  | none => simp
  | some s => norm_num [WEIGHTS]

theorem profileStep_eq (d : MetricsSnapshot) (x : ℝ) :
    profileStep d x = x + spec_profile_contribution d := by
  unfold profileStep spec_profile_contribution
  cases hq : d.profile_completion with
  | none => simp
  | some q => norm_num [WEIGHTS]

theorem activityStep_eq (d : MetricsSnapshot) (x : ℝ) :
    activityStep d x = x * spec_activity_multiplier d := by
  unfold activityStep spec_activity_multiplier
  cases ha : d.days_active with
  | none => simp [ha]
  | some a =>
    simp only [ha, Option.getD_some]
    by_cases ha0 : a = 0
    · subst ha0
      simp
    · rw [if_pos (by exact_mod_cast ha0)]
      ring

theorem points_eq (d : MetricsSnapshot) :
    calculate_reward_points d = pyInt (spec_points_total d) := by
  unfold calculate_reward_points
  rw [ratingStep_eq, reviewStep_eq, consultationStep_eq, responseStep_eq,
    successStep_eq, profileStep_eq, activityStep_eq]
  unfold spec_points_total
  exact congrArg pyInt (by ring)

theorem pyInt_nonneg (x : ℝ) (h : 0 ≤ x) : 0 ≤ pyInt x := by
  unfold pyInt
  rw [if_pos h]
  exact Int.floor_nonneg.mpr h

theorem spec_points_total_nonneg (d : MetricsSnapshot) (h : ValidSnapshot d) :
    0 ≤ spec_points_total d := by
  obtain ⟨hr0, hr5, hs0, hs1, hp0, hp1, hrr0, hrr1, hm0⟩ := h
  unfold spec_points_total
  have h1 : 0 ≤ spec_rating_contribution d := by
    unfold spec_rating_contribution
    cases hr : d.rating with
    | none => simp
    | some r =>
      cases hc : d.review_count with
      | none => simp
      | some c =>
        have hrpos : (0:ℝ) ≤ (r:ℝ) := by
          rw [hr] at hr0
          exact_mod_cast hr0
        have hlog : (0:ℝ) ≤ Real.logb 10 ((c : ℝ) + 1) / 2 := by
          apply div_nonneg _ (by norm_num)
          apply Real.logb_nonneg (by norm_num)
          have : (0:ℝ) ≤ (c:ℝ) := by positivity
          linarith
        have hmin : (0:ℝ) ≤ min 1 (Real.logb 10 ((c : ℝ) + 1) / 2) :=
          le_min (by norm_num) hlog
        positivity
  have h2 : 0 ≤ spec_review_contribution d := by
    unfold spec_review_contribution
    cases d.review_count with
    | none => simp
    | some c => positivity
  have h3 : 0 ≤ spec_consultation_contribution d := by
    unfold spec_consultation_contribution
    cases d.consultations_completed with
    | none => simp
    | some c => positivity
  have h4 : 0 ≤ spec_response_contribution d := by
    unfold spec_response_contribution
    cases d.avg_response_time_minutes with
    | none => simp
    | some m =>
      have hmax : (0:ℝ) ≤ max 0 (1 - ((m : ℝ) / 60) / 24) := le_max_left 0 _
      by_cases h24 : m / 60 ≤ 24
      · simp only [h24, if_true]
        exact mul_nonneg (by norm_num) hmax
      · simp [h24]
  have h5 : 0 ≤ spec_success_contribution d := by
    unfold spec_success_contribution
    cases hs : d.success_rate with
    | none => simp
    | some s =>
      rw [hs] at hs0
      simp only [Option.getD_some] at hs0
      have : (0:ℝ) ≤ (s:ℝ) := by exact_mod_cast hs0
      show (0:ℝ) ≤ 100 * (s:ℝ)
      linarith
  have h6 : 0 ≤ spec_profile_contribution d := by
    unfold spec_profile_contribution
    cases hp : d.profile_completion with
    | none => simp
    | some q =>
      rw [hp] at hp0
      simp only [Option.getD_some] at hp0
      have : (0:ℝ) ≤ (q:ℝ) := by exact_mod_cast hp0
      show (0:ℝ) ≤ 50 * (q:ℝ)
      linarith
  have h7 : 0 ≤ spec_activity_multiplier d := by
    unfold spec_activity_multiplier
    cases d.days_active with
    | none => norm_num
    | some a =>
      have : (0:ℝ) ≤ min 1 ((a : ℝ) / 730) := le_min (by norm_num) (by positivity)
      linarith
  have hsum : 0 ≤ spec_rating_contribution d + spec_review_contribution d +
      spec_consultation_contribution d + spec_response_contribution d +
      spec_success_contribution d + spec_profile_contribution d := by linarith
  exact mul_nonneg hsum h7

theorem valid_exampleSnap1 : ValidSnapshot exampleSnap1 := by
  norm_num [ValidSnapshot, exampleSnap1]

/-- Claim C1: for every validated snapshot, `calculate_reward_points` returns
the integer truncation (not rounding) of the section 4.1 formula: the sum of
the six weighted contributions, each zero when its source metric is absent,
scaled by the activity multiplier when `days_active` is present. -/
theorem C1_points_formula (d : MetricsSnapshot) (h : ValidSnapshot d) :
    calculate_reward_points d = pyInt (spec_points_total d) :=
  points_eq d

/-- Witness for C1 at the spec's Example 1 snapshot. -/
theorem C1_points_formula_witness :
    ValidSnapshot exampleSnap1 ∧
    calculate_reward_points exampleSnap1 = pyInt (spec_points_total exampleSnap1) :=
  ⟨valid_exampleSnap1, C1_points_formula exampleSnap1 valid_exampleSnap1⟩

/-- Claim C2: for non-negative points and rating, `determine_reward_tier`
returns the first tier in the descending order platinum, gold, silver,
standard whose three thresholds (spec section 4.2 table) are all met, and
`standard` always qualifies, so a tier is always returned. -/
theorem C2_tier_first_match (p : ℤ) (r : ℚ) (c : ℕ) (hp : 0 ≤ p) (hr : 0 ≤ r) :
    specTierQualifies "standard" p r c ∧
    determine_reward_tier p r c =
      (if specTierQualifies "platinum" p r c then "platinum"
       else if specTierQualifies "gold" p r c then "gold"
       else if specTierQualifies "silver" p r c then "silver"
       else "standard") := by
  refine ⟨⟨hp, hr, Nat.zero_le c⟩, ?_⟩
  rw [tier_ifchain]
  simp only [specTierQualifies, specTierTable]

/-- Witness for C2 at points 600, rating 4.6, review count 31. -/
theorem C2_tier_first_match_witness :
    specTierQualifies "standard" 600 4.6 31 ∧
    determine_reward_tier 600 4.6 31 =
      (if specTierQualifies "platinum" 600 4.6 31 then "platinum"
       else if specTierQualifies "gold" 600 4.6 31 then "gold"
       else if specTierQualifies "silver" 600 4.6 31 then "silver"
       else "standard") :=
  C2_tier_first_match 600 4.6 31 (by norm_num) (by norm_num)

/-- Claim C3 (amended): with no database connection the `Top 10%` badge is
granted exactly when the snapshot has at least 15 reviews — the percentile
predicate is skipped entirely, it does not conservatively block the badge. -/
theorem C3_topTen_granted_iff (d : MetricsSnapshot) :
    "Top 10%" ∈ check_badge_eligibility false d ↔ 15 ≤ d.review_count.getD 0 :=
  topTen_iff d

/-- Counterexample to C3 as stated: a snapshot with 15 reviews earns
`Top 10%` even though the engine has no population ranker. -/
theorem C3_topTen_counterexample :
    "Top 10%" ∈ check_badge_eligibility false snapTopTen := by
  rw [topTen_iff]
  simp [snapTopTen]

/-- Claim C4 (amended): the search boost is at least 1 whenever the
recency factor is at least 1; a recency factor below 1 (allowed by the
documented range 0.5 to 1.2) scales the boost below 1. -/
theorem C4_boost_ge_one (t : String) (b : List String) (r : ℚ) (hr : 1 ≤ r) :
    1 ≤ calculate_search_boost t b r := by
  unfold calculate_search_boost
  apply round2_ge_one
  have hbase := tier_boosts_ge_one t
  have hbb : (0:ℚ) ≤ min 0.5 ((b.length : ℚ) * 0.1) := by
    apply le_min <;> positivity
  have hpb : (0:ℚ) ≤ ((b.filter (fun badge => premium_badges.contains badge)).length : ℚ) * 0.1 := by
    positivity
  nlinarith

/-- Witness for C4 at the standard tier with no badges and recency 1. -/
theorem C4_boost_ge_one_witness : 1 ≤ calculate_search_boost "standard" [] 1 :=
  C4_boost_ge_one "standard" [] 1 (by norm_num)

/-- Counterexample to C4 as stated: with recency factor 0.5 (inside the
documented range) the standard-tier boost is 0.5, below the claimed floor. -/
theorem C4_boost_counterexample :
    calculate_search_boost "standard" [] 0.5 = 0.5 ∧
    calculate_search_boost "standard" [] 0.5 < 1 := by
  constructor
  · exact boost_half
  · rw [boost_half]
    norm_num

/-- Claim C5 (amended): `Rising Star` is granted iff rating at least 4.0, at
least 5 reviews, at most 15 reviews (the bound is inclusive: 15 reviews still
earns it), and `days_active` present and at most 180; in particular the
spec's Example 3 snapshot (12 reviews, rating 4.1, 100 days) earns it. -/
theorem C5_risingStar_characterization :
    (∀ (db : Bool) (d : MetricsSnapshot),
      "Rising Star" ∈ check_badge_eligibility db d ↔
        (4.0 ≤ d.rating.getD 0 ∧ 5 ≤ d.review_count.getD 0 ∧
         d.review_count.getD 0 ≤ 15 ∧ ∃ a, d.days_active = some a ∧ a ≤ 180)) ∧
    "Rising Star" ∈ check_badge_eligibility false exampleSnap3 := by
  constructor
  · exact risingStar_iff
  · rw [risingStar_iff]
    refine ⟨by norm_num [exampleSnap3], by norm_num [exampleSnap3],
      by norm_num [exampleSnap3], 100, by norm_num [exampleSnap3], by norm_num⟩

/-- Counterexample to C5 as stated: a snapshot with exactly 15 reviews
(rating 4.1, 100 days active) does earn `Rising Star`, so the upper bound is
not strict. -/
theorem C5_risingStar_counterexample :
    "Rising Star" ∈ check_badge_eligibility false snapRisingStar15 := by
  rw [risingStar_iff]
  refine ⟨by norm_num [snapRisingStar15], by norm_num [snapRisingStar15],
    by norm_num [snapRisingStar15], 100, by norm_num [snapRisingStar15], by norm_num⟩

/-- Claim C6: `calculate_search_boost` computes the spec section 4.4 formula
(round to two decimals of tier base plus capped badge boost plus premium
boost, all scaled by recency), and the platinum example with the three
premium badges and recency 1 yields exactly 2.6. -/
theorem C6_boost_formula :
    (∀ (t : String) (b : List String) (r : ℚ),
      t ∈ ["standard", "silver", "gold", "platinum"] →
        calculate_search_boost t b r = spec_search_boost t b r) ∧
    calculate_search_boost "platinum" ["Top Rated", "Client Favorite", "Perfect Score"] 1 = 2.6 :=
  ⟨fun t b r ht => boost_formula t b r ht, boost_example⟩

/-- Witness for C6 at the gold tier with no badges and recency 2. -/
theorem C6_boost_formula_witness :
    calculate_search_boost "gold" [] 2 = spec_search_boost "gold" [] 2 :=
  C6_boost_formula.1 "gold" [] 2 (by simp)

/-- Claim C7 (amended): a missing snapshot field makes every predicate kind
fail — `min_rating`, `exact_rating`, `min_reviews`, `max_days_registered`,
`response_rate`, `avg_response_time_hours`, `min_inquiries`, `success_rate`,
`min_cases` (for the positive thresholds used in the badge table) — except
`max_reviews`, whose check compares the default 0 against the bound and
therefore passes when `review_count` is missing. -/
theorem C7_missing_field_defaults (d : MetricsSnapshot) (thq : ℚ) (thn : ℕ)
    (h1 : d.rating = none) (h2 : d.review_count = none) (h3 : d.days_active = none)
    (h4 : d.response_rate = none) (h5 : d.avg_response_time_minutes = none)
    (h6 : d.total_inquiries = none) (h7 : d.success_rate = none)
    (h8 : d.cases_completed = none) (hq : 0 < thq) (hn : 0 < thn) :
    minRatingViolated thq d = true ∧ exactRatingViolated thq d = true ∧
    minReviewsViolated thn d = true ∧ maxDaysRegisteredViolated thn d = true ∧
    responseRateViolated thq d = true ∧ avgResponseTimeViolated thq d = true ∧
    minInquiriesViolated thn d = true ∧ successRateViolated thq d = true ∧
    minCasesViolated thn d = true ∧ maxReviewsViolated thn d = false := by
  refine ⟨?_, ?_, ?_, ?_, ?_, ?_, ?_, ?_, ?_, ?_⟩
  · simp only [minRatingViolated, h1, Option.getD_none, decide_eq_true_eq]
    exact hq
  · simp only [exactRatingViolated, h1, Option.getD_none, decide_eq_true_eq]
    exact hq.ne
  · simp only [minReviewsViolated, h2, Option.getD_none, decide_eq_true_eq]
    exact hn
  · simp only [maxDaysRegisteredViolated, h3]
  · simp only [responseRateViolated, h4, Option.getD_none, decide_eq_true_eq]
    exact hq
  · simp only [avgResponseTimeViolated, h5]
  · simp only [minInquiriesViolated, h6, Option.getD_none, decide_eq_true_eq]
    exact hn
  · simp only [successRateViolated, h7, Option.getD_none, decide_eq_true_eq]
    exact hq
  · simp only [minCasesViolated, h8, Option.getD_none, decide_eq_true_eq]
    exact hn
  · simp [maxReviewsViolated, h2]

/-- Witness for C7 at the empty snapshot with thresholds 4.8 and 10. -/
theorem C7_missing_field_defaults_witness :
    minRatingViolated 4.8 emptySnapshot = true ∧
    exactRatingViolated 4.8 emptySnapshot = true ∧
    minReviewsViolated 10 emptySnapshot = true ∧
    maxDaysRegisteredViolated 10 emptySnapshot = true ∧
    responseRateViolated 4.8 emptySnapshot = true ∧
    avgResponseTimeViolated 4.8 emptySnapshot = true ∧
    minInquiriesViolated 10 emptySnapshot = true ∧
    successRateViolated 4.8 emptySnapshot = true ∧
    minCasesViolated 10 emptySnapshot = true ∧
    maxReviewsViolated 10 emptySnapshot = false :=
  C7_missing_field_defaults emptySnapshot 4.8 10 rfl rfl rfl rfl rfl rfl rfl rfl
    (by norm_num) (by norm_num)

/-- Counterexample to C7 as stated: on a snapshot with no `review_count`,
the `max_reviews` block of `Rising Star` passes instead of failing. -/
theorem C7_maxReviews_counterexample :
    emptySnapshot.review_count = none ∧
    criterionOk risingStarCriteria.max_reviews
      (fun th => maxReviewsViolated th emptySnapshot) = true := by
  constructor
  · rfl
  · rfl

/-- Claim C8: for every validated snapshot, the computed reward points are
non-negative. -/
theorem C8_points_nonneg (d : MetricsSnapshot) (h : ValidSnapshot d) :
    0 ≤ calculate_reward_points d := by
  rw [points_eq]
  exact pyInt_nonneg _ (spec_points_total_nonneg d h)

/-- Witness for C8 at the spec's Example 1 snapshot. -/
theorem C8_points_nonneg_witness :
    ValidSnapshot exampleSnap1 ∧ 0 ≤ calculate_reward_points exampleSnap1 :=
  ⟨valid_exampleSnap1, C8_points_nonneg exampleSnap1 valid_exampleSnap1⟩

/-- Claim C9 (amended): without a database connection,
`process_lawyer_rewards` is a pure function of the snapshot in every field
except `last_updated`, which records the invocation's clock reading and so
differs between invocations made at different times. -/
theorem C9_process_deterministic_fields (lawyer_id : String) (d : MetricsSnapshot)
    (t1 t2 : ℕ) :
    (process_lawyer_rewards lawyer_id d t1).reward_points =
      (process_lawyer_rewards lawyer_id d t2).reward_points ∧
    (process_lawyer_rewards lawyer_id d t1).reward_tier =
      (process_lawyer_rewards lawyer_id d t2).reward_tier ∧
    (process_lawyer_rewards lawyer_id d t1).badges =
      (process_lawyer_rewards lawyer_id d t2).badges ∧
    (process_lawyer_rewards lawyer_id d t1).search_boost =
      (process_lawyer_rewards lawyer_id d t2).search_boost ∧
    (process_lawyer_rewards lawyer_id d t1).last_updated = t1 ∧
    (process_lawyer_rewards lawyer_id d t2).last_updated = t2 :=
  ⟨rfl, rfl, rfl, rfl, rfl, rfl⟩

/-- Counterexample to C9 as stated: two invocations on identical input at
different clock readings return records that are not identical (the
`last_updated` field differs). -/
theorem C9_process_counterexample :
    process_lawyer_rewards "L1" emptySnapshot 0 ≠ process_lawyer_rewards "L1" emptySnapshot 1 := by
  intro h
  have h2 : (0 : ℕ) = 1 := congrArg RewardData.last_updated h
  exact absurd h2 (by decide)

/-- Claim C10: the backend service's if-chain tier determination agrees with
the reward module's descending threshold-table loop on every input. -/
theorem C10_tier_implementations_agree (p : ℤ) (r : ℚ) (c : ℕ) :
    backendDetermineRewardTier p r c = determine_reward_tier p r c := by
  rw [tier_ifchain]
  rfl
